import Mathlib

/-!
Shallow embedding of the dependency-injection container of
`src/di/container.ts` (class `DIContainer`), together with proofs of the
registration/resolution properties stated in the specification.

Modelling choices, all traceable to the JavaScript/TypeScript source:

* Runtime values are modelled by `JSVal`.  Objects carry an allocation
  identifier, so reference identity of objects is equality of identifiers;
  primitives compare by value, as in JavaScript `===`.
* JavaScript truthiness (`if (!singleton.instance)`) is modelled by
  `JSVal.truthy`.  Reading the absent optional field `instance` yields
  `undefined`, modelled by `Option.getD … JSVal.undef`.
* A factory is a closure `() => T`.  Closures live outside the container;
  the container stores a reference to them (`FactoryId`).  A closure's
  observable behaviour is a function from its own prior invocation count to
  either a returned value or a thrown value (`FactoryEnv`); the per-closure
  invocation counts form the `Counts` component threaded through the
  operations.  This captures stateful factories (a fresh object per call,
  a throw on some call) without the container knowing about it.
* `Map<string, _>` is modelled by an association list with JavaScript
  `Map.set` semantics: replacing in place when the key exists, appending
  otherwise; `Map.get` returns the unique binding.  `Map.clear()` empties
  the map.
* A thrown JavaScript exception is an `Except.error`; `JSError`
  distinguishes the container's own `new Error(message)` (`notRegistered`)
  from a value thrown by a factory (`thrown`), which is propagated as-is.
-/

/-- Model of a JavaScript runtime value: the falsy-relevant primitives plus
objects identified by an allocation id (reference identity = id equality).
`NaN` is left out: it behaves like a nonzero number nowhere relevant here
except truthiness, and no claim involves it. -/
inductive JSVal where
  | undef : JSVal
  | null : JSVal
  | bool (b : Bool) : JSVal
  | num (n : Int) : JSVal
  | str (s : String) : JSVal
  | obj (id : Nat) : JSVal
deriving DecidableEq

/-- JavaScript truthiness: `undefined`, `null`, `false`, `0` and `""` are
falsy; every object is truthy. -/
def JSVal.truthy : JSVal → Bool
  | .undef => false
  | .null => false
  | .bool b => b
  | .num n => n != 0
  | .str s => s != ""
  | .obj _ => true

/-- Identifier of a factory closure stored in the container. -/
abbrev FactoryId := Nat

/-- Observable behaviour of the factory closures: `env fid c` is what the
closure `fid` does on its invocation number `c` (0-based): return a value
(`Except.ok`) or throw one (`Except.error`). -/
abbrev FactoryEnv := FactoryId → Nat → Except JSVal JSVal

/-- Per-closure invocation counts (closure-local state, outside the
container, so `reset` does not touch it). -/
abbrev Counts := List (FactoryId × Nat)

/-- JavaScript `Map.get(k)`: the value bound to `k`, if any. -/
def mapGet {κ α : Type} [DecidableEq κ] (k : κ) : List (κ × α) → Option α
  | [] => none
  | (k2, v) :: rest => if k2 = k then some v else mapGet k rest

/-- JavaScript `Map.set(k, v)`: replace in place if `k` is present
(keeping insertion order), append otherwise. -/
def mapSet {κ α : Type} [DecidableEq κ] (k : κ) (v : α) : List (κ × α) → List (κ × α)
  | [] => [(k, v)]
  | (k2, v2) :: rest => if k2 = k then (k, v) :: rest else (k2, v2) :: mapSet k v rest

/-- Number of completed invocations of closure `fid` (0 when never run). -/
def countOf (w : Counts) (fid : FactoryId) : Nat :=
  (mapGet fid w).getD 0

/-- Invoke closure `fid`: its behaviour at the current count, with the
count bumped.  The count increases whether the closure returns or throws:
it records that the factory was called. -/
def invoke (env : FactoryEnv) (w : Counts) (fid : FactoryId) :
    Except JSVal JSVal × Counts :=
  (env fid (countOf w fid), mapSet fid (countOf w fid + 1) w)

/-- One entry of the `singletons` map: the TypeScript object
`{ instance?: T; factory: Factory<T> }`.  (`inst` stands for the source's
`instance` field.) -/
structure SingletonEntry where
  inst : Option JSVal
  factory : FactoryId
deriving DecidableEq

/-- The two private maps of class `DIContainer`. -/
structure DIContainer where
  singletons : List (String × SingletonEntry)
  factories : List (String × FactoryId)
deriving DecidableEq

/-- The freshly constructed container (`new DIContainer()`). -/
def DIContainer.empty : DIContainer := ⟨[], []⟩

/-- `registerSingleton(key, factory)`: `this.singletons.set(key, { factory })`
— note the fresh entry has no `instance` field. -/
def registerSingleton (key : String) (fid : FactoryId) (c : DIContainer) : DIContainer :=
  { c with singletons := mapSet key ⟨none, fid⟩ c.singletons }

/-- `registerFactory(key, factory)`: `this.factories.set(key, factory)`. -/
def registerFactory (key : String) (fid : FactoryId) (c : DIContainer) : DIContainer :=
  { c with factories := mapSet key fid c.factories }

/-- What a call to `getSingleton`/`getFactory` can throw: the container's
own `new Error(message)` for an unregistered key, or a value thrown by a
factory closure, propagated unmodified. -/
inductive JSError where
  | notRegistered (msg : String) : JSError
  | thrown (v : JSVal) : JSError
deriving DecidableEq

/-- `getSingleton(key)`.  Faithful to the source: a missing entry throws
`new Error("Singleton not registered: " + key)`; then
`if (!singleton.instance)` — a truthiness test on the optional field, which
reads as `undefined` when absent — re-invokes the factory and stores the
result in the entry; finally `singleton.instance` is returned.  A throw
inside `singleton.factory()` leaves the entry unassigned and propagates. -/
def getSingleton (env : FactoryEnv) (key : String) (c : DIContainer) (w : Counts) :
    Except JSError JSVal × DIContainer × Counts :=
  match mapGet key c.singletons with
  | none => (.error (.notRegistered ("Singleton not registered: " ++ key)), c, w)
  | some entry =>
    let cur := entry.inst.getD .undef
    if cur.truthy then
      (.ok cur, c, w)
    else
      match invoke env w entry.factory with
      | (.error e, w2) => (.error (.thrown e), c, w2)
      | (.ok v, w2) =>
        (.ok v,
         { c with singletons := mapSet key ⟨some v, entry.factory⟩ c.singletons },
         w2)

/-- `getFactory(key)`: a missing entry throws
`new Error("Factory not registered: " + key)`; otherwise the stored
closure is invoked and its result returned, with no caching. -/
def getFactory (env : FactoryEnv) (key : String) (c : DIContainer) (w : Counts) :
    Except JSError JSVal × DIContainer × Counts :=
  match mapGet key c.factories with
  | none => (.error (.notRegistered ("Factory not registered: " ++ key)), c, w)
  | some fid =>
    match invoke env w fid with
    | (.error e, w2) => (.error (.thrown e), c, w2)
    | (.ok v, w2) => (.ok v, c, w2)

/-- `reset()`: `this.singletons.clear(); this.factories.clear()`. -/
def reset (_c : DIContainer) : DIContainer := ⟨[], []⟩

/-- Propagation of a factory outcome through `getFactory` (and through the
uncached branch of `getSingleton`): a returned value is returned, a thrown
value is rethrown unmodified. -/
def liftThrown : Except JSVal JSVal → Except JSError JSVal
  | .ok v => .ok v
  | .error e => .error (.thrown e)

/-- Behaviour of the concrete factory closures used in the concrete checks:
closure 0 allocates a fresh object per call; closure 1 alternates between
the two falsy primitives `0` and `""`; closure 2 always returns the falsy
number `0`; closure 3 throws the string `"boom"` on every call; every other
closure always returns the same object. -/
def envA : FactoryEnv := fun fid n =>
  match fid with
  | 0 => .ok (.obj n)
  | 1 => .ok (if n % 2 = 0 then .num 0 else .str "")
  | 2 => .ok (.num 0)
  | 3 => .error (.str "boom")
  | _ => .ok (.obj 100)

/-- Container with key `"A"` registered as a singleton whose factory
(closure 1) only ever produces falsy values, alternating `0` and `""`. -/
def cFalsyAlt : DIContainer := registerSingleton "A" 1 DIContainer.empty

/-- First `getSingleton("A")` call on `cFalsyAlt`. -/
def rAlt1 : Except JSError JSVal × DIContainer × Counts :=
  getSingleton envA "A" cFalsyAlt []

/-- Second consecutive `getSingleton("A")` call. -/
def rAlt2 : Except JSError JSVal × DIContainer × Counts :=
  getSingleton envA "A" rAlt1.2.1 rAlt1.2.2

/-- Third consecutive `getSingleton("A")` call. -/
def rAlt3 : Except JSError JSVal × DIContainer × Counts :=
  getSingleton envA "A" rAlt2.2.1 rAlt2.2.2

/-- Container with key `"Z"` registered as a singleton whose factory
(closure 2) always returns the falsy number `0`. -/
def cFalsyConst : DIContainer := registerSingleton "Z" 2 DIContainer.empty

/-- First `getSingleton("Z")` call on `cFalsyConst`. -/
def rConst1 : Except JSError JSVal × DIContainer × Counts :=
  getSingleton envA "Z" cFalsyConst []

/-- Second consecutive `getSingleton("Z")` call. -/
def rConst2 : Except JSError JSVal × DIContainer × Counts :=
  getSingleton envA "Z" rConst1.2.1 rConst1.2.2

/-- Container with key `"F"` registered in the factory namespace with
closure 0, which allocates a fresh object on every call. -/
def cFact : DIContainer := registerFactory "F" 0 DIContainer.empty

/-- Container for the error-propagation check: key `"S"` registered as a
singleton and key `"G"` in the factory namespace, both with the
always-throwing closure 3. -/
def cThrow : DIContainer :=
  registerSingleton "S" 3 (registerFactory "G" 3 DIContainer.empty)

/-- Container where key `"A"` is registered as a singleton with closure 4
and its instance has already been resolved and cached, for the
re-registration check. -/
def cPre : DIContainer := ⟨[("A", ⟨some (.obj 7), 4⟩)], []⟩

deriving instance DecidableEq for Except

/-! ## Basic map lemmas -/

theorem mapGet_mapSet_self {κ α : Type} [DecidableEq κ] (k : κ) (v : α) :
    ∀ m : List (κ × α), mapGet k (mapSet k v m) = some v
  | [] => by simp [mapGet, mapSet]
  | (k2, v2) :: rest => by
    by_cases h : k2 = k
    · simp [mapGet, mapSet, h]
    · simp [mapGet, mapSet, h, mapGet_mapSet_self k v rest]

theorem mapGet_mapSet_ne {κ α : Type} [DecidableEq κ] {k k2 : κ} (h : k2 ≠ k) (v : α) :
    ∀ m : List (κ × α), mapGet k (mapSet k2 v m) = mapGet k m
  | [] => by simp [mapGet, mapSet, h]
  | (k3, v3) :: rest => by
    by_cases h3 : k3 = k2
    · subst h3
      simp [mapGet, mapSet, h]
    · simp only [mapSet, if_neg h3]
      by_cases hk : k3 = k
      · simp [mapGet, hk]
      · simp [mapGet, hk, mapGet_mapSet_ne h v rest]

theorem countOf_mapSet_self (w : Counts) (fid : FactoryId) (n : Nat) :
    countOf (mapSet fid n w) fid = n := by
  simp [countOf, mapGet_mapSet_self]

theorem countOf_mapSet_ne {fid fid2 : FactoryId} (h : fid2 ≠ fid) (w : Counts) (n : Nat) :
    countOf (mapSet fid2 n w) fid = countOf w fid := by
  simp [countOf, mapGet_mapSet_ne h]

/-! ## Step lemmas for the container operations -/

theorem getFactory_step (env : FactoryEnv) (c : DIContainer) (w : Counts)
    (k : String) (fid : FactoryId) (h : mapGet k c.factories = some fid) :
    getFactory env k c w
      = (liftThrown (env fid (countOf w fid)), c, mapSet fid (countOf w fid + 1) w) := by
  simp only [getFactory, invoke, h]
  cases env fid (countOf w fid) <;> rfl

theorem getSingleton_uncached_step (env : FactoryEnv) (c : DIContainer) (w : Counts)
    (k : String) (fid : FactoryId) (h : mapGet k c.singletons = some ⟨none, fid⟩) :
    getSingleton env k c w
      = (match env fid (countOf w fid) with
         | .error e => (.error (.thrown e), c, mapSet fid (countOf w fid + 1) w)
         | .ok v => (.ok v,
             { c with singletons := mapSet k ⟨some v, fid⟩ c.singletons },
             mapSet fid (countOf w fid + 1) w)) := by
  simp only [getSingleton, invoke, h, Option.getD, JSVal.truthy]
  cases env fid (countOf w fid) <;> rfl

/-! ## Claim theorems -/

/-- C1 (code-bug exhibit): the claimed singleton identity fails on the
code for falsy factory values.  Key `"A"` is registered once as a
singleton, never reset and never re-registered; its factory alternates
between the falsy primitives `0` and `""`.  After the factory has been
resolved (the first call), the second and the third `getSingleton("A")`
calls — two consecutive calls — return `""` and then `0`: different
values, so certainly not the reference-identical instance.  The cause is
the truthiness test `if (!singleton.instance)`, which treats a falsy
cached value as an absent one and re-invokes the factory. -/
theorem singleton_identity_fails_on_falsy_value :
    rAlt1.1 = .ok (.num 0) ∧
    rAlt2.1 = .ok (.str "") ∧
    rAlt3.1 = .ok (.num 0) ∧
    rAlt2.1 ≠ rAlt3.1 := by decide

/-- C2 (code-bug exhibit): the claimed call-count behaviour fails on the
code for falsy factory values.  Key `"Z"` is registered once as a
singleton whose factory always returns the falsy number `0`.  The count is
0 right after registration (lazy construction holds) and 1 after the first
`getSingleton("Z")` call, but a second call drives it to 2 — not "still
exactly one" — because `if (!singleton.instance)` re-invokes the factory
whenever the cached value is falsy. -/
theorem singleton_count_grows_on_falsy_value :
    countOf [] 2 = 0 ∧
    countOf rConst1.2.2 2 = 1 ∧
    countOf rConst2.2.2 2 = 2 := by decide

/-- C3: resolving a key with no registration in the respective namespace
fails with the `Error` whose message is the fixed prefix followed by the
offending key; the container and the invocation counts are untouched, and
no default value is returned (the result is an `Except.error`, never
`Except.ok`). -/
theorem unregistered_key_fails (env : FactoryEnv) (c : DIContainer) (w : Counts)
    (k : String) (hs : mapGet k c.singletons = none) (hf : mapGet k c.factories = none) :
    getSingleton env k c w
      = (.error (.notRegistered ("Singleton not registered: " ++ k)), c, w) ∧
    getFactory env k c w
      = (.error (.notRegistered ("Factory not registered: " ++ k)), c, w) := by
  refine ⟨?_, ?_⟩
  · simp only [getSingleton, hs]
  · simp only [getFactory, hf]

/-- Witness for C3 at the never-registered key `"ghost"` of the fresh
container. -/
theorem unregistered_key_fails_witness :
    mapGet "ghost" DIContainer.empty.singletons = none ∧
    mapGet "ghost" DIContainer.empty.factories = none ∧
    (getSingleton envA "ghost" DIContainer.empty []
       = (.error (.notRegistered ("Singleton not registered: " ++ "ghost")),
          DIContainer.empty, []) ∧
     getFactory envA "ghost" DIContainer.empty []
       = (.error (.notRegistered ("Factory not registered: " ++ "ghost")),
          DIContainer.empty, [])) :=
  ⟨rfl, rfl, unregistered_key_fails envA DIContainer.empty [] "ghost" rfl rfl⟩

/-- C7: after `reset()`, every key — in particular each of the previously
registered ones — fails as unregistered in both namespaces, whatever the
prior registration state was. -/
theorem reset_unregisters_every_key (env : FactoryEnv) (c : DIContainer)
    (w : Counts) (k : String) :
    getSingleton env k (reset c) w
      = (.error (.notRegistered ("Singleton not registered: " ++ k)), reset c, w) ∧
    getFactory env k (reset c) w
      = (.error (.notRegistered ("Factory not registered: " ++ k)), reset c, w) :=
  ⟨rfl, rfl⟩

/-- C9: `reset` is idempotent — a second `reset` call returns (it is a
total function, so it raises nothing) and yields exactly the registry
state of the first call, namely both namespaces empty. -/
theorem reset_idempotent (c : DIContainer) :
    reset (reset c) = reset c ∧
    (reset c).singletons = [] ∧
    (reset c).factories = [] :=
  ⟨rfl, rfl, rfl⟩

/-- C4: for a key registered in the factory namespace, each `getFactory`
call invokes the stored closure exactly once (the invocation count rises
by one per call) and returns that invocation's outcome; the container is
unchanged (nothing is cached), a second consecutive call invokes the
closure again, and when the closure produces distinct values on the two
invocations the two calls return distinct results. -/
theorem factory_invoked_once_per_call (env : FactoryEnv) (c : DIContainer)
    (w : Counts) (k : String) (fid : FactoryId)
    (h : mapGet k c.factories = some fid) :
    (getFactory env k c w).1 = liftThrown (env fid (countOf w fid)) ∧
    (getFactory env k c w).2.1 = c ∧
    countOf (getFactory env k c w).2.2 fid = countOf w fid + 1 ∧
    (getFactory env k (getFactory env k c w).2.1 (getFactory env k c w).2.2).1
      = liftThrown (env fid (countOf w fid + 1)) ∧
    countOf (getFactory env k (getFactory env k c w).2.1 (getFactory env k c w).2.2).2.2 fid
      = countOf w fid + 2 ∧
    (∀ v1 v2, env fid (countOf w fid) = .ok v1 →
        env fid (countOf w fid + 1) = .ok v2 → v1 ≠ v2 →
        (getFactory env k c w).1
          ≠ (getFactory env k (getFactory env k c w).2.1 (getFactory env k c w).2.2).1) := by
  have h1 := getFactory_step env c w k fid h
  have hc : countOf (mapSet fid (countOf w fid + 1) w) fid = countOf w fid + 1 :=
    countOf_mapSet_self w fid _
  have h2 := getFactory_step env c (mapSet fid (countOf w fid + 1) w) k fid h
  rw [hc] at h2
  rw [h1, h2]
  refine ⟨rfl, rfl, countOf_mapSet_self w fid _, rfl, countOf_mapSet_self _ fid _, ?_⟩
  intro v1 v2 hv1 hv2 hne heq
  rw [hv1, hv2] at heq
  simp only [liftThrown] at heq
  exact hne (by injection heq)

/-- C5: if the stored factory of an uncached singleton key throws, the
error is rethrown to the caller unmodified, the cache slot stays exactly
as it was (the whole container is unchanged), and a subsequent
`getSingleton` call with the same key invokes the factory again from
scratch; `getFactory` rethrows a factory's error unmodified as well. -/
theorem factory_error_propagates_cache_stays_empty (env : FactoryEnv)
    (c : DIContainer) (w : Counts) (k : String) (fid : FactoryId) (e : JSVal)
    (hs : mapGet k c.singletons = some ⟨none, fid⟩)
    (he : env fid (countOf w fid) = .error e) :
    getSingleton env k c w
      = (.error (.thrown e), c, mapSet fid (countOf w fid + 1) w) ∧
    (getSingleton env k (getSingleton env k c w).2.1 (getSingleton env k c w).2.2).1
      = liftThrown (env fid (countOf w fid + 1)) ∧
    countOf (getSingleton env k (getSingleton env k c w).2.1
        (getSingleton env k c w).2.2).2.2 fid
      = countOf w fid + 2 ∧
    (∀ k2 fid2 e2, mapGet k2 c.factories = some fid2 →
        env fid2 (countOf w fid2) = .error e2 →
        getFactory env k2 c w
          = (.error (.thrown e2), c, mapSet fid2 (countOf w fid2 + 1) w)) := by
  have h1 : getSingleton env k c w
      = (.error (.thrown e), c, mapSet fid (countOf w fid + 1) w) := by
    rw [getSingleton_uncached_step env c w k fid hs, he]
  have hc : countOf (mapSet fid (countOf w fid + 1) w) fid = countOf w fid + 1 :=
    countOf_mapSet_self w fid _
  have h2 := getSingleton_uncached_step env c (mapSet fid (countOf w fid + 1) w) k fid hs
  rw [hc] at h2
  refine ⟨h1, ?_, ?_, ?_⟩
  · rw [h1, h2]
    cases hE : env fid (countOf w fid + 1) <;> rfl
  · rw [h1, h2]
    cases hE : env fid (countOf w fid + 1) <;> simp [countOf_mapSet_self]
  · intro k2 fid2 e2 hf2 he2
    rw [getFactory_step env c w k2 fid2 hf2, he2]
    rfl

/-- C6: re-registering an already-registered singleton key is a total
operation (it cannot raise) that replaces the stored factory and drops any
previously cached instance: the new entry has no instance, the next
`getSingleton` call returns the new factory's outcome after invoking it
exactly once, and the old factory is not invoked. -/
theorem reregistration_replaces_factory (env : FactoryEnv) (c : DIContainer)
    (w : Counts) (k : String) (fidNew : FactoryId) (entry : SingletonEntry)
    (hs : mapGet k c.singletons = some entry) :
    mapGet k (registerSingleton k fidNew c).singletons = some ⟨none, fidNew⟩ ∧
    (getSingleton env k (registerSingleton k fidNew c) w).1
      = liftThrown (env fidNew (countOf w fidNew)) ∧
    countOf (getSingleton env k (registerSingleton k fidNew c) w).2.2 fidNew
      = countOf w fidNew + 1 ∧
    (entry.factory ≠ fidNew →
      countOf (getSingleton env k (registerSingleton k fidNew c) w).2.2 entry.factory
        = countOf w entry.factory) := by
  have hreg : mapGet k (registerSingleton k fidNew c).singletons = some ⟨none, fidNew⟩ := by
    simp [registerSingleton, mapGet_mapSet_self]
  have hstep := getSingleton_uncached_step env (registerSingleton k fidNew c) w k fidNew hreg
  rw [hstep]
  refine ⟨hreg, ?_, ?_, ?_⟩
  · cases hE : env fidNew (countOf w fidNew) <;> rfl
  · cases hE : env fidNew (countOf w fidNew) <;> simp [countOf_mapSet_self]
  · intro hne
    cases hE : env fidNew (countOf w fidNew) <;>
      simp [countOf_mapSet_ne (Ne.symm hne)]

/-- The result and the invocation counts of `getFactory` do not depend on
the singletons map. -/
theorem getFactory_ignores_singletons (env : FactoryEnv) (k : String) (w : Counts)
    (s s2 : List (String × SingletonEntry)) (f : List (String × FactoryId)) :
    (getFactory env k ⟨s, f⟩ w).1 = (getFactory env k ⟨s2, f⟩ w).1 ∧
    (getFactory env k ⟨s, f⟩ w).2.2 = (getFactory env k ⟨s2, f⟩ w).2.2 := by
  cases h : mapGet k f with
  | none =>
    refine ⟨?_, ?_⟩ <;> simp only [getFactory, h]
  | some fid =>
    rw [getFactory_step env ⟨s, f⟩ w k fid h, getFactory_step env ⟨s2, f⟩ w k fid h]
    exact ⟨rfl, rfl⟩

/-- The result and the invocation counts of `getSingleton` do not depend
on the factories map. -/
theorem getSingleton_ignores_factories (env : FactoryEnv) (k : String) (w : Counts)
    (s : List (String × SingletonEntry)) (f f2 : List (String × FactoryId)) :
    (getSingleton env k ⟨s, f⟩ w).1 = (getSingleton env k ⟨s, f2⟩ w).1 ∧
    (getSingleton env k ⟨s, f⟩ w).2.2 = (getSingleton env k ⟨s, f2⟩ w).2.2 := by
  cases h : mapGet k s with
  | none =>
    refine ⟨?_, ?_⟩ <;> simp only [getSingleton, h]
  | some entry =>
    refine ⟨?_, ?_⟩ <;>
      simp only [getSingleton, h, invoke] <;>
      cases hE : env entry.factory (countOf w entry.factory) <;>
      simp only [hE] <;>
      split_ifs <;> rfl

/-- C8: the two namespaces are disjoint.  `registerSingleton` leaves the
factories map — and hence the observable behaviour of `getFactory` — as it
was; `registerFactory` leaves the singletons map (including any cached
instance) and the observable behaviour of `getSingleton` as they were; a
single key registered in both modes at once is found in both namespaces
with its own registration. -/
theorem singleton_factory_namespaces_disjoint (env : FactoryEnv) (c : DIContainer)
    (w : Counts) (k k2 : String) (fid fid2 : FactoryId) :
    (registerSingleton k fid c).factories = c.factories ∧
    (registerFactory k fid2 c).singletons = c.singletons ∧
    (getFactory env k2 (registerSingleton k fid c) w).1 = (getFactory env k2 c w).1 ∧
    (getFactory env k2 (registerSingleton k fid c) w).2.2
      = (getFactory env k2 c w).2.2 ∧
    (getSingleton env k2 (registerFactory k fid2 c) w).1
      = (getSingleton env k2 c w).1 ∧
    (getSingleton env k2 (registerFactory k fid2 c) w).2.2
      = (getSingleton env k2 c w).2.2 ∧
    mapGet k (registerFactory k fid2 (registerSingleton k fid c)).singletons
      = some ⟨none, fid⟩ ∧
    mapGet k (registerFactory k fid2 (registerSingleton k fid c)).factories
      = some fid2 := by
  obtain ⟨s, f⟩ := c
  refine ⟨rfl, rfl, ?_, ?_, ?_, ?_, ?_, ?_⟩
  · exact (getFactory_ignores_singletons env k2 w (mapSet k ⟨none, fid⟩ s) s f).1
  · exact (getFactory_ignores_singletons env k2 w (mapSet k ⟨none, fid⟩ s) s f).2
  · exact (getSingleton_ignores_factories env k2 w s (mapSet k fid2 f) f).1
  · exact (getSingleton_ignores_factories env k2 w s (mapSet k fid2 f) f).2
  · simp [registerSingleton, registerFactory, mapGet_mapSet_self]
  · simp [registerSingleton, registerFactory, mapGet_mapSet_self]

/-- C10: no key validation is performed.  `registerSingleton` and
`registerFactory` accept every string key, including the empty string,
without error (they are total functions), the empty-string registration is
found in the respective namespace, and resolving it behaves exactly as
resolving any other key after the analogous registration. -/
theorem empty_string_key_accepted (env : FactoryEnv) (c : DIContainer)
    (w : Counts) (fid : FactoryId) (k : String) :
    mapGet "" (registerSingleton "" fid c).singletons = some ⟨none, fid⟩ ∧
    mapGet "" (registerFactory "" fid c).factories = some fid ∧
    (getSingleton env "" (registerSingleton "" fid DIContainer.empty) w).1
      = (getSingleton env k (registerSingleton k fid DIContainer.empty) w).1 ∧
    (getFactory env "" (registerFactory "" fid DIContainer.empty) w).1
      = (getFactory env k (registerFactory k fid DIContainer.empty) w).1 := by
  refine ⟨?_, ?_, ?_, ?_⟩
  · simp [registerSingleton, mapGet_mapSet_self]
  · simp [registerFactory, mapGet_mapSet_self]
  · rw [getSingleton_uncached_step env _ w "" fid
        (by simp [registerSingleton, DIContainer.empty, mapGet_mapSet_self]),
      getSingleton_uncached_step env _ w k fid
        (by simp [registerSingleton, DIContainer.empty, mapGet_mapSet_self])]
    cases hE : env fid (countOf w fid) <;> rfl
  · rw [getFactory_step env _ w "" fid
        (by simp [registerFactory, DIContainer.empty, mapGet_mapSet_self]),
      getFactory_step env _ w k fid
        (by simp [registerFactory, DIContainer.empty, mapGet_mapSet_self])]

/-- Witness for C4 at key `"F"` of `cFact`, whose closure 0 allocates a
fresh object per call. -/
theorem factory_invoked_once_per_call_witness :
    mapGet "F" cFact.factories = some 0 ∧
    ((getFactory envA "F" cFact []).1 = liftThrown (envA 0 (countOf [] 0)) ∧
     (getFactory envA "F" cFact []).2.1 = cFact ∧
     countOf (getFactory envA "F" cFact []).2.2 0 = countOf [] 0 + 1 ∧
     (getFactory envA "F" (getFactory envA "F" cFact []).2.1
         (getFactory envA "F" cFact []).2.2).1
       = liftThrown (envA 0 (countOf [] 0 + 1)) ∧
     countOf (getFactory envA "F" (getFactory envA "F" cFact []).2.1
         (getFactory envA "F" cFact []).2.2).2.2 0
       = countOf [] 0 + 2 ∧
     (∀ v1 v2, envA 0 (countOf [] 0) = .ok v1 →
         envA 0 (countOf [] 0 + 1) = .ok v2 → v1 ≠ v2 →
         (getFactory envA "F" cFact []).1
           ≠ (getFactory envA "F" (getFactory envA "F" cFact []).2.1
               (getFactory envA "F" cFact []).2.2).1)) :=
  ⟨rfl, factory_invoked_once_per_call envA cFact [] "F" 0 rfl⟩

/-- Witness for C5 at key `"S"` of `cThrow`, whose closure 3 always throws
the string `"boom"`, and at the factory-namespace key `"G"` with the same
closure. -/
theorem factory_error_propagates_witness :
    mapGet "S" cThrow.singletons = some ⟨none, 3⟩ ∧
    envA 3 (countOf [] 3) = .error (.str "boom") ∧
    (getSingleton envA "S" cThrow []
       = (.error (.thrown (.str "boom")), cThrow, mapSet 3 (countOf [] 3 + 1) []) ∧
     (getSingleton envA "S" (getSingleton envA "S" cThrow []).2.1
         (getSingleton envA "S" cThrow []).2.2).1
       = liftThrown (envA 3 (countOf [] 3 + 1)) ∧
     countOf (getSingleton envA "S" (getSingleton envA "S" cThrow []).2.1
         (getSingleton envA "S" cThrow []).2.2).2.2 3
       = countOf [] 3 + 2 ∧
     (∀ k2 fid2 e2, mapGet k2 cThrow.factories = some fid2 →
         envA fid2 (countOf [] fid2) = .error e2 →
         getFactory envA k2 cThrow []
           = (.error (.thrown e2), cThrow, mapSet fid2 (countOf [] fid2 + 1) []))) :=
  ⟨rfl, rfl,
   factory_error_propagates_cache_stays_empty envA cThrow [] "S" 3 (.str "boom") rfl rfl⟩

/-- Witness for C6 at key `"A"` of `cPre`, which already holds a cached
instance produced by the old closure 4, re-registered with closure 0. -/
theorem reregistration_replaces_factory_witness :
    mapGet "A" cPre.singletons = some ⟨some (.obj 7), 4⟩ ∧
    (mapGet "A" (registerSingleton "A" 0 cPre).singletons = some ⟨none, 0⟩ ∧
     (getSingleton envA "A" (registerSingleton "A" 0 cPre) []).1
       = liftThrown (envA 0 (countOf [] 0)) ∧
     countOf (getSingleton envA "A" (registerSingleton "A" 0 cPre) []).2.2 0
       = countOf [] 0 + 1 ∧
     ((4 : FactoryId) ≠ 0 →
       countOf (getSingleton envA "A" (registerSingleton "A" 0 cPre) []).2.2 4
         = countOf [] 4)) :=
  ⟨rfl, reregistration_replaces_factory envA cPre [] "A" 0 ⟨some (.obj 7), 4⟩ rfl⟩
